import Mathlib

/-!
Verification development for the MeghaGaah dashboard (src/src/App.jsx).

The source is a single React component. We shallowly embed:
* the static anchor tables `manualSensorPositions` (m1 / m2);
* the synthesizer `generateSensorsFromPositions` (one sensor per anchor,
  id = mountainId * 100 + index, four formatted metric values drawn from
  `Math.random()`, and a risk classification from two draws);
* the `mountains` registry and the lookup `mountains[selectedID]`
  (`getRegion`);
* the selection state machine (`selectedID`, `activeSensor`) with the
  operations wired to the UI: the region `select` onChange handler,
  marker clicks (`onSelect = setActiveSensor`), the detail-panel close
  button, and the re-render that recomputes `mountains` (and hence all
  sensors, with fresh draws) after every state change;
* the detail panel's four metric rows and its mount condition;
* the `CameraLogger` change handler.

`Math.random()` values are modelled as rationals in `[0, 1)`, supplied
as an explicit stream of per-sensor draw bundles.  JS `Number.toFixed`
rounding (round half up for the positive values occurring here) is
modelled exactly over `ℚ`; a metric field of a `Sensor` holds the
numeric part of the formatted string the source stores.
-/

namespace MeghaGaah

/-- A fixed anchor from `manualSensorPositions`: world coordinates and label. -/
structure Anchor where
  x : ℚ
  y : ℚ
  z : ℚ
  label : String
deriving DecidableEq

/-- The cloudburst risk classification values occurring in the source. -/
inductive Risk where
  | LOW
  | MEDIUM
  | HIGH
deriving DecidableEq

/-- A synthesized sensor record, as built by `generateSensorsFromPositions`.
The metric fields `temp`, `hum`, `wind`, `moisture` hold the numeric part of
the formatted strings of the source (i.e. after `toFixed` rounding; the
constant unit suffix is dropped). -/
structure Sensor where
  id : ℕ
  label : String
  pos : ℚ × ℚ × ℚ
  temp : ℚ
  hum : ℚ
  wind : ℚ
  moisture : ℚ
  risk : Risk
deriving DecidableEq

/-- The bundle of `Math.random()` results consumed for one sensor, in source
order: temperature, humidity, wind, moisture, then the two risk draws
(the second risk draw is only consulted when the first is ≤ 0.7, but the
bundle always carries both values). -/
structure Draws where
  tempU : ℚ
  humU : ℚ
  windU : ℚ
  moistureU : ℚ
  riskU1 : ℚ
  riskU2 : ℚ
deriving DecidableEq

/-- `Math.random()` always returns a value in `[0, 1)`. -/
def ValidDraws (d : Draws) : Prop :=
  (0 ≤ d.tempU ∧ d.tempU < 1) ∧ (0 ≤ d.humU ∧ d.humU < 1) ∧
  (0 ≤ d.windU ∧ d.windU < 1) ∧ (0 ≤ d.moistureU ∧ d.moistureU < 1) ∧
  (0 ≤ d.riskU1 ∧ d.riskU1 < 1) ∧ (0 ≤ d.riskU2 ∧ d.riskU2 < 1)

instance (d : Draws) : Decidable (ValidDraws d) := by
  unfold ValidDraws
  infer_instance

/-- A per-sensor stream of draw bundles: sensor `i` of one synthesizer call
consumes `rng i`. -/
def ValidRng (rng : ℕ → Draws) : Prop := ∀ i, ValidDraws (rng i)

/-- JS `x.toFixed(0)` for the nonnegative values occurring here:
round to the nearest integer, ties up. -/
def toFixed0 (q : ℚ) : ℚ := ((⌊q + 1 / 2⌋ : ℤ) : ℚ)

/-- JS `x.toFixed(1)` for the nonnegative values occurring here:
round to the nearest tenth, ties up. -/
def toFixed1 (q : ℚ) : ℚ := ((⌊q * 10 + 1 / 2⌋ : ℤ) : ℚ) / 10

/-- The risk expression of the source, line 134:
`Math.random() > 0.7 ? "HIGH" : Math.random() > 0.4 ? "MEDIUM" : "LOW"`. -/
def riskOf (u1 u2 : ℚ) : Risk :=
  if 7 / 10 < u1 then .HIGH else if 2 / 5 < u2 then .MEDIUM else .LOW

/-- The record built for anchor `pos` at index `i` in
`generateSensorsFromPositions` (source lines 126–135). -/
def mkSensor (mountainId i : ℕ) (pos : Anchor) (d : Draws) : Sensor :=
  { id := mountainId * 100 + i
    label := pos.label
    pos := (pos.x, pos.y, pos.z)
    temp := toFixed1 (d.tempU * 15 + 5)
    hum := toFixed0 (d.humU * 30 + 60)
    wind := toFixed0 (d.windU * 30 + 10)
    moisture := toFixed1 (d.moistureU * 5 + 7)
    risk := riskOf d.riskU1 d.riskU2 }

/-- `positions.map((pos, i) => f(i, pos))` starting the index at `k`. -/
def mapFromIdx (f : ℕ → Anchor → Sensor) : ℕ → List Anchor → List Sensor
  | _, [] => []
  | k, a :: as => f k a :: mapFromIdx f (k + 1) as

/-- The sensor synthesizer (source lines 125–136). -/
def generateSensorsFromPositions (positions : List Anchor) (mountainId : ℕ)
    (rng : ℕ → Draws) : List Sensor :=
  mapFromIdx (fun i pos => mkSensor mountainId i pos (rng i)) 0 positions

/-- `manualSensorPositions.m1` (source lines 104–113). -/
def manualSensorPositionsM1 : List Anchor :=
  [⟨12519, 8663, -2433, "North Ridge"⟩,
   ⟨1500, 9963, -1000, "South Peak"⟩,
   ⟨0, 9463, 2000, "Base Camp"⟩,
   ⟨-9500, 10050, 0, "Summit Point"⟩,
   ⟨7000, 11663, 1500, "Valley Floor"⟩,
   ⟨-1800, 9663, -9000, "East Slope"⟩,
   ⟨9500, 9063, -5800, "South Base"⟩]

/-- `manualSensorPositions.m2` (source lines 114–122). -/
def manualSensorPositionsM2 : List Anchor :=
  [⟨12519, 5863, -2433, "North Ridge"⟩,
   ⟨1500, 6863, -1000, "South Peak"⟩,
   ⟨-4500, 7463, 2000, "Base Camp"⟩,
   ⟨-16500, 6550, 0, "Summit Point"⟩]

/-- One entry of the `mountains` registry (source lines 138–149). -/
structure Region where
  name : String
  path : String
  sensors : List Sensor
deriving DecidableEq

/-- The registry lookup `mountains[id]` (source lines 138–151).  A JS
property access on a plain object yields `undefined` for an unknown key,
which we embed as `none` — the NotFound condition of the spec.  The
registry is rebuilt on every render, so it takes the draw stream of that
render. -/
def getRegion (id : String) (rng : ℕ → Draws) : Option Region :=
  if id = "m1" then
    some ⟨"Kashmir Valley", "/mountain1.glb",
      generateSensorsFromPositions manualSensorPositionsM1 1 rng⟩
  else if id = "m2" then
    some ⟨"Mandi Ridge", "/mountain2.glb",
      generateSensorsFromPositions manualSensorPositionsM2 2 rng⟩
  else none

/-- The sensor list rendered for region `id` on a render whose draws are
`rng` (`current.sensors`, source lines 151 and 269). -/
def computeSensors (id : String) (rng : ℕ → Draws) : List Sensor :=
  ((getRegion id rng).map Region.sensors).getD []

/-- The dashboard state after a render: the two `useState` cells
(`selectedID`, `activeSensor`, source lines 98–99) together with the
sensor list of `current`, which is recomputed — with fresh draws — on
every render. -/
structure AppState where
  selectedID : String
  activeSensor : Option Sensor
  sensors : List Sensor
deriving DecidableEq

/-- The state after the initial mount: `selectedID = 'm1'`,
`activeSensor = null`. -/
def initState (rng : ℕ → Draws) : AppState :=
  ⟨"m1", none, computeSensors "m1" rng⟩

/-- The region picker onChange handler (source lines 177–180):
`setSelectedID(e.target.value); setActiveSensor(null)`, followed by the
re-render that recomputes the sensors with draws `rng`. -/
def selectRegion (st : AppState) (id : String) (rng : ℕ → Draws) : AppState :=
  ⟨id, none, computeSensors id rng⟩

/-- The code-level sensor-selection operation: a marker click runs
`onSelect(data)` with `onSelect = setActiveSensor` (source lines 25 and
274) — there is no membership guard — followed by the re-render. -/
def setActiveSensor (st : AppState) (s : Sensor) (rng : ℕ → Draws) : AppState :=
  ⟨st.selectedID, some s, computeSensors st.selectedID rng⟩

/-- A click on the `i`-th rendered marker: only markers of
`current.sensors` are rendered (source lines 269–277), so the UI can only
invoke `setActiveSensor` with an element of the current list. -/
def selectSensorClick (st : AppState) (i : ℕ) (h : i < st.sensors.length)
    (rng : ℕ → Draws) : AppState :=
  setActiveSensor st (st.sensors.get ⟨i, h⟩) rng

/-- The detail-panel close button (source line 198):
`setActiveSensor(null)`, followed by the re-render. -/
def clearSensor (st : AppState) (rng : ℕ → Draws) : AppState :=
  ⟨st.selectedID, none, computeSensors st.selectedID rng⟩

/-- A re-render that changes neither state cell but recomputes the
sensor list with fresh draws. -/
def rerender (st : AppState) (rng : ℕ → Draws) : AppState :=
  ⟨st.selectedID, st.activeSensor, computeSensors st.selectedID rng⟩

/-- The states reachable through the exposed interaction surface: initial
mount, the region picker (whose only options are `m1` and `m2`, source
lines 183–184), clicks on rendered markers, the close button, and
re-renders; every random draw lies in `[0, 1)`. -/
inductive Reachable : AppState → Prop where
  | init (rng : ℕ → Draws) (h : ValidRng rng) : Reachable (initState rng)
  | selectRegion (st : AppState) (hst : Reachable st) (id : String)
      (hid : id = "m1" ∨ id = "m2") (rng : ℕ → Draws) (h : ValidRng rng) :
      Reachable (selectRegion st id rng)
  | selectSensor (st : AppState) (hst : Reachable st) (i : ℕ)
      (hi : i < st.sensors.length) (rng : ℕ → Draws) (h : ValidRng rng) :
      Reachable (selectSensorClick st i hi rng)
  | clearSensor (st : AppState) (hst : Reachable st) (rng : ℕ → Draws)
      (h : ValidRng rng) : Reachable (clearSensor st rng)
  | rerender (st : AppState) (hst : Reachable st) (rng : ℕ → Draws)
      (h : ValidRng rng) : Reachable (rerender st rng)

/-- The sensor ids of each region, which depend only on the region (not on
the draws): `mountainId * 100 + i`. -/
def regionIdList (id : String) : List ℕ :=
  if id = "m1" then [100, 101, 102, 103, 104, 105, 106]
  else if id = "m2" then [200, 201, 202, 203]
  else []

/-- The four metric rows of the detail panel, in source order
(lines 206–225): Temperature, Humidity, Air Moisture, Wind Speed. -/
def detailRows (s : Sensor) : List (String × ℚ) :=
  [("Temperature", s.temp), ("Humidity", s.hum),
   ("Air Moisture", s.moisture), ("Wind Speed", s.wind)]

/-- The detail panel is mounted exactly when a sensor is active
(source line 190: `{activeSensor && (...)}`). -/
def renderPanel (a : Option Sensor) : Option (List (String × ℚ)) :=
  a.map detailRows

/-- The invariant actually maintained by the state machine: the rendered
sensor list always carries the id list of the selected region, and the
active sensor's id, when present, is one of those ids. -/
def Inv (st : AppState) : Prop :=
  st.sensors.map Sensor.id = regionIdList st.selectedID ∧
  ∀ s, st.activeSensor = some s → s.id ∈ regionIdList st.selectedID

/-- A draw stream in which every `Math.random()` result is `0`. -/
def rngZero : ℕ → Draws := fun _ => ⟨0, 0, 0, 0, 0, 0⟩

/-- A draw stream whose first risk draw is 0.9 and whose other draws are
all 0; it synthesizes HIGH-risk sensors whose metric values coincide with
those of the all-zero stream. -/
def rngRisk : ℕ → Draws := fun _ => ⟨0, 0, 0, 0, 9 / 10, 0⟩

/-- Sensor 0 of region m1 as synthesized on a render whose draws are all
zero. -/
def sensorZero0 : Sensor := (initState rngZero).sensors.get ⟨0, by decide⟩

/-- The state after mounting with all-zero draws and clicking marker 0,
where the re-render triggered by the click redraws with `rngRisk`. -/
def stClick0 : AppState :=
  selectSensorClick (initState rngZero) 0 (by decide) rngRisk

/-- A sensor record that belongs to no region's sensor list. -/
def sGhost : Sensor := ⟨999, "Ghost", (0, 0, 0), 5, 60, 10, 7, .LOW⟩

/-- A draw bundle whose humidity draw rounds the formatted humidity up to
its range's upper endpoint. -/
def humCexDraws : Draws := ⟨0, 99 / 100, 0, 0, 0, 0⟩

/-- The constant stream of `humCexDraws`. -/
def rngHumCex : ℕ → Draws := fun _ => humCexDraws

/-- Scenario state: region m1 selected (all-zero draws throughout the
scenario keep every step concrete). -/
def st1 : AppState := selectRegion (initState rngZero) "m1" rngZero

/-- Scenario state: after clicking the marker at index 2 ("Base Camp"). -/
def st2 : AppState := selectSensorClick st1 2 (by decide) rngZero

/-- Scenario state: after the close button. -/
def st3 : AppState := clearSensor st2 rngZero

/-- Scenario state: after switching the picker to m2. -/
def st4 : AppState := selectRegion st3 "m2" rngZero

/-- The diagnostic record logged by the `CameraLogger` change handler
(source lines 60–72). -/
structure CameraLog where
  x : ℝ
  y : ℝ
  z : ℝ
  distance : ℝ

/-- The `handleChange` body (source lines 60–72): read the camera
position, compute `Math.sqrt(x ** 2 + y ** 2 + z ** 2)`, and log the
coordinates and the distance. -/
noncomputable def handleChange (px py pz : ℝ) : CameraLog :=
  ⟨px, py, pz, Real.sqrt (px ^ 2 + py ^ 2 + pz ^ 2)⟩

/-- A camera change event at dashboard state `st`: the handler only logs;
it calls no state setter, so the state it returns is `st` itself. -/
noncomputable def cameraChange (st : AppState) (px py pz : ℝ) :
    AppState × CameraLog :=
  (st, handleChange px py pz)

/-! ### Helper lemmas -/

theorem length_mapFromIdx (f : ℕ → Anchor → Sensor) (k : ℕ)
    (l : List Anchor) : (mapFromIdx f k l).length = l.length := by
  induction l generalizing k with
  | nil => rfl
  | cons a as ih => simp [mapFromIdx, ih]

theorem get?_mapFromIdx (f : ℕ → Anchor → Sensor) (k : ℕ) (l : List Anchor)
    (i : ℕ) : (mapFromIdx f k l).get? i = (l.get? i).map (f (k + i)) := by
  induction l generalizing k i with
  | nil => simp [mapFromIdx]
  | cons a as ih =>
    cases i with
    | zero => rfl
    | succ j =>
      simp only [mapFromIdx, List.get?]
      rw [ih (k + 1) j]
      have hkj : k + 1 + j = k + (j + 1) := by omega
      rw [hkj]

theorem mem_mapFromIdx {f : ℕ → Anchor → Sensor} {k : ℕ} {l : List Anchor}
    {s : Sensor} (hs : s ∈ mapFromIdx f k l) :
    ∃ i, ∃ h : i < l.length, s = f (k + i) (l.get ⟨i, h⟩) := by
  induction l generalizing k with
  | nil => cases hs
  | cons a as ih =>
    rcases List.mem_cons.mp hs with h | h
    · exact ⟨0, by simp, by simpa using h⟩
    · obtain ⟨i, hi, heq⟩ := ih h
      refine ⟨i + 1, Nat.succ_lt_succ hi, ?_⟩
      have hk : k + (i + 1) = k + 1 + i := by omega
      rw [hk]
      exact heq

theorem nodup_map_id_mapFromIdx (m : ℕ) (f : ℕ → Anchor → Sensor)
    (hf : ∀ i a, (f i a).id = m * 100 + i) :
    ∀ (k : ℕ) (l : List Anchor), ((mapFromIdx f k l).map Sensor.id).Nodup := by
  intro k l
  induction l generalizing k with
  | nil => simp [mapFromIdx]
  | cons a as ih =>
    simp only [mapFromIdx, List.map_cons, List.nodup_cons]
    refine ⟨?_, ih (k + 1)⟩
    intro hmem
    obtain ⟨s, hs, hid⟩ := List.mem_map.mp hmem
    obtain ⟨i, hi, rfl⟩ := mem_mapFromIdx hs
    rw [hf, hf] at hid
    omega

theorem map_id_computeSensors (id : String) (rng : ℕ → Draws) :
    (computeSensors id rng).map Sensor.id = regionIdList id := by
  unfold computeSensors getRegion regionIdList
  by_cases h1 : id = "m1"
  · simp only [h1, if_pos rfl]
    rfl
  · by_cases h2 : id = "m2"
    · simp only [h1, h2, if_neg, if_pos rfl, ite_false]
      rfl
    · simp [h1, h2]

theorem inv_reachable (st : AppState) (h : Reachable st) : Inv st := by
  induction h with
  | init rng h =>
    exact ⟨map_id_computeSensors "m1" rng, fun s hs => Option.noConfusion hs⟩
  | selectRegion st hst id hid rng h ih =>
    exact ⟨map_id_computeSensors id rng, fun s hs => Option.noConfusion hs⟩
  | selectSensor st hst i hi rng h ih =>
    refine ⟨map_id_computeSensors st.selectedID rng, ?_⟩
    intro s hs
    have hget : st.sensors.get ⟨i, hi⟩ = s := by
      cases hs
      rfl
    have hmem : s.id ∈ st.sensors.map Sensor.id := by
      rw [← hget]
      exact List.mem_map_of_mem Sensor.id (st.sensors.get_mem i hi)
    rw [ih.1] at hmem
    exact hmem
  | clearSensor st hst rng h ih =>
    exact ⟨map_id_computeSensors st.selectedID rng,
      fun s hs => Option.noConfusion hs⟩
  | rerender st hst rng h ih =>
    exact ⟨map_id_computeSensors st.selectedID rng, fun s hs => ih.2 s hs⟩

theorem le_toFixed0 {a : ℤ} {x : ℚ} (h : (a : ℚ) ≤ x) : (a : ℚ) ≤ toFixed0 x := by
  unfold toFixed0
  have : a ≤ ⌊x + 1 / 2⌋ := Int.le_floor.mpr (by linarith)
  exact_mod_cast this

theorem toFixed0_le {b : ℤ} {x : ℚ} (h : x < (b : ℚ)) : toFixed0 x ≤ (b : ℚ) := by
  unfold toFixed0
  have hlt : ⌊x + 1 / 2⌋ < b + 1 := Int.floor_lt.mpr (by push_cast; linarith)
  have : ⌊x + 1 / 2⌋ ≤ b := by omega
  exact_mod_cast this

theorem le_toFixed1 {a : ℤ} {x : ℚ} (h : (a : ℚ) ≤ x) : (a : ℚ) ≤ toFixed1 x := by
  unfold toFixed1
  rw [le_div_iff₀ (by norm_num : (0 : ℚ) < 10)]
  have : a * 10 ≤ ⌊x * 10 + 1 / 2⌋ := Int.le_floor.mpr (by push_cast; linarith)
  exact_mod_cast this

theorem toFixed1_le {b : ℤ} {x : ℚ} (h : x < (b : ℚ)) : toFixed1 x ≤ (b : ℚ) := by
  unfold toFixed1
  rw [div_le_iff₀ (by norm_num : (0 : ℚ) < 10)]
  have hlt : ⌊x * 10 + 1 / 2⌋ < b * 10 + 1 :=
    Int.floor_lt.mpr (by push_cast; linarith)
  have : ⌊x * 10 + 1 / 2⌋ ≤ b * 10 := by omega
  exact_mod_cast this

theorem rawBounds {d : Draws} (hd : ValidDraws d) :
    ((5 : ℚ) ≤ d.tempU * 15 + 5 ∧ d.tempU * 15 + 5 < 20) ∧
    ((60 : ℚ) ≤ d.humU * 30 + 60 ∧ d.humU * 30 + 60 < 90) ∧
    ((10 : ℚ) ≤ d.windU * 30 + 10 ∧ d.windU * 30 + 10 < 40) ∧
    ((7 : ℚ) ≤ d.moistureU * 5 + 7 ∧ d.moistureU * 5 + 7 < 12) := by
  obtain ⟨⟨h1, h2⟩, ⟨h3, h4⟩, ⟨h5, h6⟩, ⟨h7, h8⟩, _, _⟩ := hd
  refine ⟨⟨by linarith, by linarith⟩, ⟨by linarith, by linarith⟩,
    ⟨by linarith, by linarith⟩, ⟨by linarith, by linarith⟩⟩

theorem mkSensor_bounds (m i : ℕ) (a : Anchor) {d : Draws}
    (hd : ValidDraws d) :
    ((5 : ℚ) ≤ (mkSensor m i a d).temp ∧ (mkSensor m i a d).temp ≤ 20) ∧
    ((60 : ℚ) ≤ (mkSensor m i a d).hum ∧ (mkSensor m i a d).hum ≤ 90) ∧
    ((10 : ℚ) ≤ (mkSensor m i a d).wind ∧ (mkSensor m i a d).wind ≤ 40) ∧
    ((7 : ℚ) ≤ (mkSensor m i a d).moisture ∧ (mkSensor m i a d).moisture ≤ 12) := by
  obtain ⟨⟨h1, h2⟩, ⟨h3, h4⟩, ⟨h5, h6⟩, ⟨h7, h8⟩⟩ := rawBounds hd
  unfold mkSensor
  refine ⟨⟨?_, ?_⟩, ⟨?_, ?_⟩, ⟨?_, ?_⟩, ⟨?_, ?_⟩⟩
  · exact_mod_cast le_toFixed1 (a := 5) (by exact_mod_cast h1)
  · exact_mod_cast toFixed1_le (b := 20) (by exact_mod_cast h2)
  · exact_mod_cast le_toFixed0 (a := 60) (by exact_mod_cast h3)
  · exact_mod_cast toFixed0_le (b := 90) (by exact_mod_cast h4)
  · exact_mod_cast le_toFixed0 (a := 10) (by exact_mod_cast h5)
  · exact_mod_cast toFixed0_le (b := 40) (by exact_mod_cast h6)
  · exact_mod_cast le_toFixed1 (a := 7) (by exact_mod_cast h7)
  · exact_mod_cast toFixed1_le (b := 12) (by exact_mod_cast h8)

theorem validRng_rngZero : ValidRng rngZero := by
  intro i
  norm_num [rngZero, ValidDraws]

theorem validRng_rngRisk : ValidRng rngRisk := by
  intro i
  norm_num [rngRisk, ValidDraws]

theorem validRng_rngHumCex : ValidRng rngHumCex := by
  intro i
  norm_num [rngHumCex, humCexDraws, ValidDraws]

/-! ### Claim theorems -/

/-- C1 (counterexample): the claimed invariant — `activeSensor`, when
present, is an element of the currently selected region's sensor list —
fails at a reachable state.  Mounting with all-zero draws and clicking
marker 0 stores that marker's record in `activeSensor`, but the re-render
triggered by the click recomputes the sensor list with fresh draws
(here a high risk draw), so the stored record is not in the current
list: its risk classification comes from the earlier draws. -/
theorem C1_invariant_counterexample :
    Reachable stClick0 ∧ stClick0.activeSensor = some sensorZero0 ∧
      sensorZero0 ∉ stClick0.sensors := by
  refine ⟨Reachable.selectSensor (initState rngZero)
      (Reachable.init rngZero validRng_rngZero) 0 (by decide) rngRisk
      validRng_rngRisk, rfl, ?_⟩
  intro hmem
  norm_num [stClick0, sensorZero0, initState, selectSensorClick,
    setActiveSensor, computeSensors, getRegion, generateSensorsFromPositions,
    mapFromIdx, mkSensor, rngZero, rngRisk, toFixed0, toFixed1, riskOf,
    manualSensorPositionsM1, List.get] at hmem
  exact Risk.noConfusion hmem

/-- C1 (amended): at every reachable state of the selection state machine,
whenever `activeSensor` is present its id belongs to the id list of the
currently selected region's sensor list; every operation (selectRegion,
selectSensor, clearSensor, and any re-render that recomputes the sensors)
preserves this.  Full-record membership is not preserved: the draws of
the metric fields change on every re-render, while id, label and position
are draw-independent. -/
theorem C1_activeSensor_id_in_region (st : AppState) (hst : Reachable st)
    (s : Sensor) (hs : st.activeSensor = some s) :
    s.id ∈ st.sensors.map Sensor.id := by
  have h := inv_reachable st hst
  rw [h.1]
  exact h.2 s hs

/-- C1 witness: the amended invariant, instantiated at the concrete
reachable state of the counterexample. -/
theorem C1_activeSensor_id_in_region_witness :
    stClick0.activeSensor = some sensorZero0 ∧
      sensorZero0.id ∈ stClick0.sensors.map Sensor.id :=
  ⟨rfl,
    C1_activeSensor_id_in_region stClick0
      (Reachable.selectSensor (initState rngZero)
        (Reachable.init rngZero validRng_rngZero) 0 (by decide) rngRisk
        validRng_rngRisk)
      sensorZero0 rfl⟩

/-- C2 (counterexample): invoking the code-level sensor-selection
operation (`setActiveSensor`, the `onSelect` of the markers) with a
sensor record that does not belong to the current region's sensor list is
not a no-op: the source has no membership guard, so the state changes. -/
theorem C2_noop_counterexample :
    sGhost ∉ (initState rngZero).sensors ∧
      setActiveSensor (initState rngZero) sGhost rngZero ≠ initState rngZero := by
  constructor
  · intro hmem
    norm_num [sGhost, initState, computeSensors, getRegion,
      generateSensorsFromPositions, mapFromIdx, mkSensor, rngZero,
      toFixed0, toFixed1, riskOf, manualSensorPositionsM1] at hmem
  · intro h
    have h2 := congrArg AppState.activeSensor h
    simp [setActiveSensor, initState] at h2

/-- C2 (amended): `selectSensor` — the code's `setActiveSensor` — sets
`activeSensor` to its argument unconditionally, whether or not the
argument belongs to the current region's sensor list, and leaves
`selectedRegionId` unchanged; in particular, when the argument does
belong (the only case the rendered UI can produce, since markers exist
only for `current.sensors`), `activeSensor` is set to it. -/
theorem C2_setActiveSensor_unconditional (st : AppState) (s : Sensor)
    (rng : ℕ → Draws) :
    (setActiveSensor st s rng).activeSensor = some s ∧
      (setActiveSensor st s rng).selectedID = st.selectedID :=
  ⟨rfl, rfl⟩

/-- C3: for every anchor sequence and region numeric id, `synthesize`
(`generateSensorsFromPositions`) returns exactly one sensor per anchor,
order-preserving — the i-th output keeps the i-th anchor's label and
position and has id `regionNumericId * 100 + i` — and the ids of one call
are pairwise distinct. -/
theorem C3_generateSensors_shape (positions : List Anchor) (m : ℕ)
    (rng : ℕ → Draws) :
    (generateSensorsFromPositions positions m rng).length = positions.length ∧
    (∀ i a, positions.get? i = some a →
      ∃ s, (generateSensorsFromPositions positions m rng).get? i = some s ∧
        s.id = m * 100 + i ∧ s.label = a.label ∧
        s.pos = (a.x, a.y, a.z)) ∧
    ((generateSensorsFromPositions positions m rng).map Sensor.id).Nodup := by
  refine ⟨length_mapFromIdx _ 0 positions, ?_, ?_⟩
  · intro i a ha
    refine ⟨mkSensor m i a (rng i), ?_, rfl, rfl, rfl⟩
    unfold generateSensorsFromPositions
    rw [get?_mapFromIdx, ha]
    simp
  · exact nodup_map_id_mapFromIdx m _ (fun _ _ => rfl) 0 positions

/-- C3 witness: the shape properties instantiated on the m1 anchor table
with the all-zero draw stream, at index 2 ("Base Camp"). -/
theorem C3_generateSensors_shape_witness :
    (generateSensorsFromPositions manualSensorPositionsM1 1 rngZero).length = 7 ∧
    (∃ s, (generateSensorsFromPositions manualSensorPositionsM1 1
        rngZero).get? 2 = some s ∧ s.id = 102 ∧ s.label = "Base Camp") ∧
    ((generateSensorsFromPositions manualSensorPositionsM1 1
        rngZero).map Sensor.id).Nodup := by
  have h := C3_generateSensors_shape manualSensorPositionsM1 1 rngZero
  obtain ⟨s, hs, hid, hlabel, _⟩ :=
    h.2.1 2 ⟨0, 9463, 2000, "Base Camp"⟩ rfl
  exact ⟨h.1, ⟨s, hs, hid, hlabel⟩, h.2.2⟩

/-- C4: the risk of every synthesized sensor is `riskOf u1 u2` of its two
risk draws, where `riskOf` classifies HIGH when `u1 > 0.7`, else MEDIUM
when `u2 > 0.4`, else LOW; for every pair of draws the result is one of
LOW, MEDIUM, HIGH and nothing else. -/
theorem C4_risk_classification :
    (∀ u1 u2 : ℚ,
      (7 / 10 < u1 → riskOf u1 u2 = .HIGH) ∧
      (u1 ≤ 7 / 10 → 2 / 5 < u2 → riskOf u1 u2 = .MEDIUM) ∧
      (u1 ≤ 7 / 10 → u2 ≤ 2 / 5 → riskOf u1 u2 = .LOW) ∧
      (riskOf u1 u2 = .LOW ∨ riskOf u1 u2 = .MEDIUM ∨ riskOf u1 u2 = .HIGH)) ∧
    ∀ (m i : ℕ) (a : Anchor) (d : Draws),
      (mkSensor m i a d).risk = riskOf d.riskU1 d.riskU2 := by
  constructor
  · intro u1 u2
    refine ⟨?_, ?_, ?_, ?_⟩
    · intro h
      simp [riskOf, h]
    · intro h1 h2
      rw [riskOf, if_neg (not_lt.mpr h1), if_pos h2]
    · intro h1 h2
      rw [riskOf, if_neg (not_lt.mpr h1), if_neg (not_lt.mpr h2)]
    · unfold riskOf
      split_ifs <;> simp
  · intro m i a d
    rfl

/-- C4 witness: the three classification branches at concrete draw
pairs. -/
theorem C4_risk_classification_witness :
    riskOf (9 / 10) 0 = .HIGH ∧ riskOf (1 / 2) (1 / 2) = .MEDIUM ∧
      riskOf (1 / 5) (1 / 5) = .LOW :=
  ⟨(C4_risk_classification.1 (9 / 10) 0).1 (by norm_num),
    (C4_risk_classification.1 (1 / 2) (1 / 2)).2.1 (by norm_num) (by norm_num),
    (C4_risk_classification.1 (1 / 5) (1 / 5)).2.2.1 (by norm_num)
      (by norm_num)⟩

/-- C5 (counterexample): the numeric part of a synthesized metric does not
always fall in the documented closed-open range.  With a humidity draw of
0.99 the raw value is 89.7, but the stored value is its `toFixed(0)`
rounding 90, which is outside [60, 90). -/
theorem C5_range_counterexample :
    ValidRng rngHumCex ∧
      ∃ s ∈ generateSensorsFromPositions manualSensorPositionsM1 1 rngHumCex,
        ¬ s.hum < 90 := by
  refine ⟨validRng_rngHumCex,
    ⟨mkSensor 1 0 ⟨12519, 8663, -2433, "North Ridge"⟩ (rngHumCex 0),
      List.mem_cons_self _ _, ?_⟩⟩
  norm_num [mkSensor, toFixed0, rngHumCex, humCexDraws]

/-- C5 (amended): for every anchor and all draws in [0, 1), the unrounded
metric values lie in the documented closed-open ranges [5, 20), [60, 90),
[10, 40), [7, 12), but the numeric part each sensor stores is the
`toFixed`-rounded value, which lies in the closed ranges [5, 20],
[60, 90], [10, 40], [7, 12] — the upper endpoint is reachable when a draw
rounds up. -/
theorem C5_metric_bounds (positions : List Anchor) (m : ℕ)
    (rng : ℕ → Draws) (hrng : ValidRng rng) :
    (∀ s ∈ generateSensorsFromPositions positions m rng,
      ((5 : ℚ) ≤ s.temp ∧ s.temp ≤ 20) ∧
      ((60 : ℚ) ≤ s.hum ∧ s.hum ≤ 90) ∧
      ((10 : ℚ) ≤ s.wind ∧ s.wind ≤ 40) ∧
      ((7 : ℚ) ≤ s.moisture ∧ s.moisture ≤ 12)) ∧
    (∀ d : Draws, ValidDraws d →
      ((5 : ℚ) ≤ d.tempU * 15 + 5 ∧ d.tempU * 15 + 5 < 20) ∧
      ((60 : ℚ) ≤ d.humU * 30 + 60 ∧ d.humU * 30 + 60 < 90) ∧
      ((10 : ℚ) ≤ d.windU * 30 + 10 ∧ d.windU * 30 + 10 < 40) ∧
      ((7 : ℚ) ≤ d.moistureU * 5 + 7 ∧ d.moistureU * 5 + 7 < 12)) := by
  refine ⟨?_, fun d hd => rawBounds hd⟩
  intro s hs
  obtain ⟨i, hi, rfl⟩ := mem_mapFromIdx hs
  exact mkSensor_bounds m (0 + i) _ (hrng (0 + i))

/-- C5 witness: the rounded bounds at the all-zero-draws sensor 0 of m1,
and the raw bounds at the counterexample draw bundle. -/
theorem C5_metric_bounds_witness :
    (((5 : ℚ) ≤ sensorZero0.temp ∧ sensorZero0.temp ≤ 20) ∧
      ((60 : ℚ) ≤ sensorZero0.hum ∧ sensorZero0.hum ≤ 90) ∧
      ((10 : ℚ) ≤ sensorZero0.wind ∧ sensorZero0.wind ≤ 40) ∧
      ((7 : ℚ) ≤ sensorZero0.moisture ∧ sensorZero0.moisture ≤ 12)) ∧
    (((5 : ℚ) ≤ humCexDraws.tempU * 15 + 5 ∧
        humCexDraws.tempU * 15 + 5 < 20) ∧
      ((60 : ℚ) ≤ humCexDraws.humU * 30 + 60 ∧
        humCexDraws.humU * 30 + 60 < 90) ∧
      ((10 : ℚ) ≤ humCexDraws.windU * 30 + 10 ∧
        humCexDraws.windU * 30 + 10 < 40) ∧
      ((7 : ℚ) ≤ humCexDraws.moistureU * 5 + 7 ∧
        humCexDraws.moistureU * 5 + 7 < 12)) :=
  ⟨(C5_metric_bounds manualSensorPositionsM1 1 rngZero
      validRng_rngZero).1 sensorZero0 (List.get_mem _ 0 (by decide)),
    (C5_metric_bounds manualSensorPositionsM1 1 rngZero
      validRng_rngZero).2 humCexDraws (validRng_rngHumCex 0)⟩

/-- C6: for every starting state, region id and re-render draws,
`selectRegion` sets `selectedRegionId` to that id and clears
`activeSensor` — the postcondition `activeSensor = none` holds regardless
of what was active before. -/
theorem C6_selectRegion_clears (st : AppState) (id : String)
    (rng : ℕ → Draws) :
    (selectRegion st id rng).selectedID = id ∧
      (selectRegion st id rng).activeSensor = none :=
  ⟨rfl, rfl⟩

/-- C7: `getRegion` returns the registered region for the ids "m1" and
"m2" and returns the NotFound result (`none`, the `undefined` of the JS
property access) for every other id. -/
theorem C7_getRegion_lookup (rng : ℕ → Draws) :
    getRegion "m1" rng = some ⟨"Kashmir Valley", "/mountain1.glb",
      generateSensorsFromPositions manualSensorPositionsM1 1 rng⟩ ∧
    getRegion "m2" rng = some ⟨"Mandi Ridge", "/mountain2.glb",
      generateSensorsFromPositions manualSensorPositionsM2 2 rng⟩ ∧
    ∀ id, id ≠ "m1" → id ≠ "m2" → getRegion id rng = none := by
  refine ⟨rfl, rfl, ?_⟩
  intro id h1 h2
  unfold getRegion
  rw [if_neg h1, if_neg h2]

/-- C7 witness: the lookup at the unrecognized id "m3". -/
theorem C7_getRegion_lookup_witness : getRegion "m3" rngZero = none :=
  (C7_getRegion_lookup rngZero).2.2 "m3" (by decide) (by decide)

/-- C8: the concrete scenario.  Selecting region "m1" yields 7 sensors
with ids 100–106, one of them labeled "Base Camp"; clicking that marker
makes the active sensor's label "Base Camp" and the detail panel shows 4
metric rows; the close action clears the active sensor and unmounts the
panel; switching to "m2" yields 4 sensors with ids 200–203 and no active
sensor. -/
theorem C8_scenario :
    st1.sensors.length = 7 ∧
    st1.sensors.map Sensor.id = [100, 101, 102, 103, 104, 105, 106] ∧
    (∃ s ∈ st1.sensors, s.label = "Base Camp") ∧
    st2.activeSensor.map Sensor.label = some "Base Camp" ∧
    (renderPanel st2.activeSensor).map List.length = some 4 ∧
    st3.activeSensor = none ∧
    renderPanel st3.activeSensor = none ∧
    st3.selectedID = "m1" ∧
    st4.sensors.length = 4 ∧
    st4.sensors.map Sensor.id = [200, 201, 202, 203] ∧
    st4.activeSensor = none := by
  refine ⟨rfl, rfl, ⟨st1.sensors.get ⟨2, by decide⟩,
    List.get_mem _ 2 (by decide), rfl⟩, rfl, rfl, rfl, rfl, rfl, rfl, rfl,
    rfl⟩

/-- C9: on a camera change event the handler leaves the dashboard state
unchanged and emits a record carrying the camera coordinates and a
distance that is exactly the Euclidean norm of the camera position:
it is nonnegative and its square is `x² + y² + z²`. -/
theorem C9_camera_logger (st : AppState) (px py pz : ℝ) :
    (cameraChange st px py pz).1 = st ∧
    (cameraChange st px py pz).2.x = px ∧
    (cameraChange st px py pz).2.y = py ∧
    (cameraChange st px py pz).2.z = pz ∧
    (cameraChange st px py pz).2.distance =
      Real.sqrt (px ^ 2 + py ^ 2 + pz ^ 2) ∧
    0 ≤ (cameraChange st px py pz).2.distance ∧
    ((cameraChange st px py pz).2.distance) ^ 2 = px ^ 2 + py ^ 2 + pz ^ 2 :=
  ⟨rfl, rfl, rfl, rfl, rfl, Real.sqrt_nonneg _,
    Real.sq_sqrt (by positivity)⟩

/-- C10: the close action sets `activeSensor` to `none` and changes no
other field of the selection state: `selectedRegionId` is unchanged. -/
theorem C10_clearSensor_frame (st : AppState) (rng : ℕ → Draws) :
    (clearSensor st rng).activeSensor = none ∧
      (clearSensor st rng).selectedID = st.selectedID :=
  ⟨rfl, rfl⟩

end MeghaGaah
